import Mathlib

/-!
Shallow embedding of the weather/particle animation engine of `src/main.rs`
(terminal dashboard "peppemon"): the particle system, its spawn rules, the
lightning generator, the settings interface and the non-destructive
compositor, together with proofs of the specification claims.

Modelling conventions:
* Rust `f32` values are modelled as exact rationals (`ℚ`); `u8`/`u16`/`u32`
  counters as `Nat` with explicit `% 2^w` where the source can wrap and
  `Nat` truncated subtraction where the source uses `saturating_sub`.
* `fastrand::Rng` is modelled nondeterministically as two draw streams
  (integer draws and unit-interval float draws) with cursors; each primitive
  consumes one stream element, mirroring the source's draw order.
* `Instant` timestamps are rationals (seconds); `t.elapsed()` at wall-clock
  `now` is `now - t`.
* the `f32::sin` used for snow/season drift is an explicit function
  parameter `sinf`, so every theorem holds for an arbitrary sine.
-/

namespace Peppemon

/-- RGB color — the only `Color` constructor the animation engine uses. -/
structure Color where
  r : Nat
  g : Nat
  b : Nat
deriving DecidableEq, Repr

/-- Nondeterministic model of `fastrand::Rng`: a stream of integer draws and
a stream of float draws (intended to lie in `[0,1)`), with cursors. -/
structure Rng where
  nats : Nat → Nat
  floats : Nat → ℚ
  npos : Nat
  fpos : Nat

def Rng.nextNat (r : Rng) : Nat × Rng :=
  (r.nats r.npos, { r with npos := r.npos + 1 })

/-- `rng.bool()`. -/
def Rng.bool (r : Rng) : Bool × Rng :=
  let (n, r') := r.nextNat
  (n % 2 == 1, r')

/-- A draw uniform in `[0, k)`: models `rng.usize(..k)`, `rng.u8(..k)`, … -/
def Rng.natLt (r : Rng) (k : Nat) : Nat × Rng :=
  let (n, r') := r.nextNat
  (n % k, r')

/-- `rng.u8(..)`: uniform in `[0, 256)`. -/
def Rng.u8 (r : Rng) : Nat × Rng := r.natLt 256

/-- `rng.f32()`: a float draw in `[0, 1)`. -/
def Rng.f32 (r : Rng) : ℚ × Rng :=
  (r.floats r.fpos, { r with fpos := r.fpos + 1 })

/-- Floats stream really lies in the unit interval (what `fastrand` guarantees). -/
def UnitFloats (r : Rng) : Prop := ∀ i, 0 ≤ r.floats i ∧ r.floats i < 1

inductive WeatherEffect
  | Rain
  | Snow
  | Lightning
  | Seasons
deriving DecidableEq, Repr

inductive CycleMode
  | Auto
  | Pinned
deriving DecidableEq, Repr

inductive SeasonMode
  | AutoRotate
  | RealSeason
  | NatureBlend
deriving DecidableEq, Repr

inductive Season
  | Spring
  | Summer
  | Autumn
  | Winter
deriving DecidableEq, Repr

inductive SettingsRow
  | Effect
  | CycleMode
  | SeasonMode
  | Intensity
  | Speed
deriving DecidableEq, Repr

-- Constants from the top of main.rs.
def MAX_PARTICLES : Nat := 100
def CYCLE_DURATION : ℚ := 45
def LIGHTNING_FLASH_FRAMES : Nat := 18
def LIGHTNING_MIN_INTERVAL_SECS : Nat := 3
def LIGHTNING_MAX_INTERVAL_SECS : Nat := 8

/-- Month (1..12) from Unix seconds — Howard Hinnant's `civil_from_days`
arithmetic, exactly the month computation inside `detect_season`. -/
def civilMonth (secs : Nat) : Nat :=
  let days : Int := (secs / 86400 : Nat)
  let z : Int := days + 719468
  let era : Int := (if 0 ≤ z then z else z - 146096) / 146097
  let doe : Nat := (z - era * 146097).toNat
  let yoe : Nat := (doe - doe / 1460 + doe / 36524 - doe / 146096) / 365
  let doy : Nat := doe - (365 * yoe + yoe / 4 - yoe / 100)
  let mp : Nat := (5 * doy + 2) / 153
  if mp < 10 then mp + 3 else mp - 9

/-- `detect_season`, as a function of the wall-clock Unix seconds. -/
def detect_season (secs : Nat) : Season :=
  let m := civilMonth secs
  if 3 ≤ m ∧ m ≤ 5 then Season.Spring
  else if 6 ≤ m ∧ m ≤ 8 then Season.Summer
  else if 9 ≤ m ∧ m ≤ 11 then Season.Autumn
  else Season.Winter

structure Particle where
  x : ℚ
  y : ℚ
  symbol : String
  fg : Color
  speed_y : ℚ
  drift_x : ℚ
  life : Nat
deriving DecidableEq, Repr

structure LightningState where
  active : Bool
  frames_remaining : Nat
  bolt_segments : List (Nat × Nat)
  next_strike : ℚ
  timer : ℚ
deriving Repr

structure ParticleSystem where
  particles : List Particle
  rng : Rng
  effect : WeatherEffect
  cycle_mode : CycleMode
  season_mode : SeasonMode
  intensity : Nat
  speed : Nat
  current_season : Season
  season_timer : ℚ
  cycle_timer : ℚ
  lightning : LightningState
  enabled : Bool
  frame_count : Nat
  transition_cooldown : Nat

/-- `ParticleSystem::new()`, with the ambient inputs (`fastrand::Rng::new()`,
`Instant::now()`, the wall clock read by `detect_season`) made explicit. -/
def ParticleSystem.new (rng : Rng) (now : ℚ) (secs : Nat) : ParticleSystem where
  particles := []
  rng := rng
  effect := WeatherEffect.Rain
  cycle_mode := CycleMode.Auto
  season_mode := SeasonMode.RealSeason
  intensity := 3
  speed := 5
  current_season := detect_season secs
  season_timer := now
  cycle_timer := now
  lightning :=
    { active := false
      frames_remaining := 0
      bolt_segments := []
      next_strike := 5
      timer := now }
  enabled := true
  frame_count := 0
  transition_cooldown := 0

/-- Effect rotation Rain → Snow → Lightning → Seasons → Rain (auto-cycle and
settings `→`). -/
def nextEffect : WeatherEffect → WeatherEffect
  | WeatherEffect.Rain => WeatherEffect.Snow
  | WeatherEffect.Snow => WeatherEffect.Lightning
  | WeatherEffect.Lightning => WeatherEffect.Seasons
  | WeatherEffect.Seasons => WeatherEffect.Rain

/-- Effect rotation in the settings `←` direction. -/
def prevEffect : WeatherEffect → WeatherEffect
  | WeatherEffect.Rain => WeatherEffect.Seasons
  | WeatherEffect.Snow => WeatherEffect.Rain
  | WeatherEffect.Lightning => WeatherEffect.Snow
  | WeatherEffect.Seasons => WeatherEffect.Lightning

/-- Season rotation Spring → Summer → Autumn → Winter → Spring. -/
def nextSeason : Season → Season
  | Season.Spring => Season.Summer
  | Season.Summer => Season.Autumn
  | Season.Autumn => Season.Winter
  | Season.Winter => Season.Spring

/-- Speed multiplier: linear ramp from 0.2 (speed=1) to 3.0 (speed=10). -/
def speedMult (speed : Nat) : ℚ :=
  0.2 + ((speed : ℚ) - 1) * (2.8 / 9)

/-- One kinematics step of the `retain_mut` closure: move a particle and
decrement its life (`u16::saturating_sub`, hence `Nat` subtraction). -/
def moveParticle (mult dtf : ℚ) (p : Particle) : Particle :=
  { p with
    y := p.y + p.speed_y * mult * dtf
    x := p.x + p.drift_x * mult * dtf
    life := p.life - 1 }

/-- The retention predicate of the `retain_mut` closure:
`p.y < h + 1.0 && p.x >= -1.0 && p.x < w + 1.0 && p.life > 0`. -/
def keepParticle (w h : ℚ) (p : Particle) : Bool :=
  decide (p.y < h + 1) && decide (-1 ≤ p.x) && decide (p.x < w + 1) &&
    decide (0 < p.life)

/-- One iteration body of the `spawn_rain` loop: draws in source order
(heavy?, [glyph index, tint], wind byte, x, y, fall speed, [drift]). -/
def mkRainParticle (width : Nat) (rng : Rng) : Particle × Rng :=
  let (heavy, r1) := rng.bool
  let (symbol, fg, r2) :=
    if heavy then
      let (si, ra) := r1.natLt 2
      let (cb, rb) := ra.bool
      (["│", "|"].getD si "│",
        if cb then Color.mk 40 60 90 else Color.mk 50 80 100, rb)
    else
      ("·", Color.mk 50 50 50, r1)
  let (wByte, r3) := r2.u8
  let hasWind : Bool := wByte < 30
  let (fx, r4) := r3.f32
  let (fy, r5) := r4.f32
  let (fs, r6) := r5.f32
  let (drift, r7) :=
    if hasWind then
      let (fd, rr) := r6.f32
      ((0.1 : ℚ) + fd * 0.1, rr)
    else ((0 : ℚ), r6)
  ({ x := fx * width
     y := -(fy * 3)
     symbol := if hasWind && heavy then "/" else symbol
     fg := fg
     speed_y := if heavy then 0.8 + fs * 0.6 else 0.5 + fs * 0.3
     drift_x := drift
     life := 1200 }, r7)

/-- One iteration body of the `spawn_snow` loop. -/
def mkSnowParticle (width fc : Nat) (sinf : ℚ → ℚ) (rng : Rng) :
    Particle × Rng :=
  let (foreground, r1) := rng.bool
  let (si, r2) := r1.natLt 4
  let symbol := ["*", "·", "•", "."].getD si "*"
  let fg := if foreground then Color.mk 120 120 130 else Color.mk 70 70 80
  let (f0, r3) := r2.f32
  let seed := f0 * 100
  let (fx, r4) := r3.f32
  let (fy, r5) := r4.f32
  let (fs, r6) := r5.f32
  ({ x := fx * width
     y := -(fy * 2)
     symbol := symbol
     fg := fg
     speed_y := if foreground then 0.3 + fs * 0.2 else 0.15 + fs * 0.15
     drift_x := sinf (seed + (fc : ℚ) * 0.1) * 0.3
     life := 1800 }, r6)

/-- One iteration body of the `spawn_season` loop (per-particle season choice
then one of four season-specific constructions). -/
def mkSeasonParticle (width height fc : Nat) (mode : SeasonMode)
    (cur : Season) (secs : Nat) (sinf : ℚ → ℚ) (rng : Rng) :
    Particle × Rng :=
  let (season, r0) :=
    match mode with
    | SeasonMode.RealSeason => (detect_season secs, rng)
    | SeasonMode.AutoRotate => (cur, rng)
    | SeasonMode.NatureBlend =>
      let (k, r') := rng.natLt 4
      (if k = 0 then Season.Spring
       else if k = 1 then Season.Summer
       else if k = 2 then Season.Autumn
       else Season.Winter, r')
  match season with
  | Season.Spring =>
    let (f0, r1) := r0.f32
    let seed := f0 * 10
    let (fx, r2) := r1.f32
    let (fy, r3) := r2.f32
    let (si, r4) := r3.natLt 4
    let (ci, r5) := r4.natLt 3
    let (fs, r6) := r5.f32
    ({ x := fx * width
       y := -(fy * 2)
       symbol := ["*", ".", "·", "'"].getD si "*"
       fg := [Color.mk 120 60 80, Color.mk 140 80 100,
              Color.mk 100 70 75].getD ci (Color.mk 120 60 80)
       speed_y := 0.15 + fs * 0.2
       drift_x := sinf ((fc : ℚ) * 0.08 + seed) * 0.25
       life := 1500 }, r6)
  | Season.Summer =>
    let (fx, r1) := r0.f32
    let (fy, r2) := r1.f32
    let (si, r3) := r2.natLt 4
    let (ci, r4) := r3.natLt 6
    let (fs, r5) := r4.f32
    let (fd, r6) := r5.f32
    let (fl, r7) := r6.natLt 210
    ({ x := fx * width
       y := (height : ℚ) * (0.6 + fy * 0.38)
       symbol := [".", "·", "°", "*"].getD si "."
       fg := [Color.mk 255 200 60, Color.mk 200 160 40, Color.mk 255 180 50,
              Color.mk 140 110 30, Color.mk 180 140 35,
              Color.mk 100 80 20].getD ci (Color.mk 255 200 60)
       speed_y := -0.05 + fs * 0.1
       drift_x := (fd - 0.5) * 0.3
       life := 120 + fl }, r7)
  | Season.Autumn =>
    let (f0, r1) := r0.f32
    let seed := f0 * 10
    let (fx, r2) := r1.f32
    let (fy, r3) := r2.f32
    let (si, r4) := r3.natLt 6
    let (ci, r5) := r4.natLt 4
    let (fs, r6) := r5.f32
    ({ x := fx * width
       y := -(fy * 2)
       symbol := ["~", "\x7d", "\x7b", "\\", "/", "_"].getD si "~"
       fg := [Color.mk 130 70 0, Color.mk 110 55 15, Color.mk 100 40 30,
              Color.mk 120 90 20].getD ci (Color.mk 130 70 0)
       speed_y := 0.3 + fs * 0.5
       drift_x := sinf ((fc : ℚ) * 0.12 + seed) * 0.5
       life := 1200 }, r6)
  | Season.Winter =>
    let (foreground, r1) := r0.bool
    let (fg, r2) :=
      if foreground then (Color.mk 100 100 110, r1)
      else
        let (cb, r') := r1.bool
        (if cb then Color.mk 70 85 95 else Color.mk 55 55 60, r')
    let (f0, r3) := r2.f32
    let seed := f0 * 100
    let (fn, r4) := r3.f32
    let nearBottom := fn
    let (fx, r5) := r4.f32
    let (fy, r6) := r5.f32
    let (si, r7) := r6.natLt 5
    let (fs, r8) := r7.f32
    ({ x := fx * width
       y := -(fy * 2)
       symbol := ["*", ".", "·", "°", "+"].getD si "*"
       fg := fg
       speed_y := (if foreground then 0.25 + fs * 0.2 else 0.1 + fs * 0.15) *
         (if (0.8 : ℚ) < nearBottom then 0.5 else 1)
       drift_x := sinf (seed + (fc : ℚ) * 0.05) * 0.2
       life := 1800 }, r8)

/-- The common shape of the three spawn loops: `count` iterations, each first
checking `self.particles.len() >= MAX_PARTICLES { break; }`, then pushing
one freshly drawn particle. -/
def spawnLoop (mk : Rng → Particle × Rng) :
    Nat → List Particle → Rng → List Particle × Rng
  | 0, parts, rng => (parts, rng)
  | n + 1, parts, rng =>
    if MAX_PARTICLES ≤ parts.length then (parts, rng)
    else spawnLoop mk n (parts ++ [(mk rng).1]) (mk rng).2

/-- `ParticleSystem::spawn_rain`. -/
def ParticleSystem.spawn_rain (ps : ParticleSystem) (width count : Nat) :
    ParticleSystem :=
  { ps with
    particles := (spawnLoop (mkRainParticle width) count ps.particles ps.rng).1
    rng := (spawnLoop (mkRainParticle width) count ps.particles ps.rng).2 }

/-- `ParticleSystem::spawn_snow`. -/
def ParticleSystem.spawn_snow (ps : ParticleSystem) (width count : Nat)
    (sinf : ℚ → ℚ) : ParticleSystem :=
  { ps with
    particles :=
      (spawnLoop (mkSnowParticle width ps.frame_count sinf) count
        ps.particles ps.rng).1
    rng :=
      (spawnLoop (mkSnowParticle width ps.frame_count sinf) count
        ps.particles ps.rng).2 }

/-- `ParticleSystem::spawn_season`. -/
def ParticleSystem.spawn_season (ps : ParticleSystem) (width height count : Nat)
    (secs : Nat) (sinf : ℚ → ℚ) : ParticleSystem :=
  { ps with
    particles :=
      (spawnLoop
        (mkSeasonParticle width height ps.frame_count ps.season_mode
          ps.current_season secs sinf) count ps.particles ps.rng).1
    rng :=
      (spawnLoop
        (mkSeasonParticle width height ps.frame_count ps.season_mode
          ps.current_season secs sinf) count ps.particles ps.rng).2 }

/-- The downward walk of the bolt generator: `for y in 0..height` pushing the
current column, stepping left/unchanged/right clamped to `[0, width)`, with a
30% chance of a branch segment beside the (already stepped) column. -/
def boltWalk (width : Nat) : Nat → Nat → Nat → Rng → List (Nat × Nat) × Rng
  | 0, _, _, rng => ([], rng)
  | rows + 1, y, x, rng =>
    let step := (rng.natLt 3).1
    let r1 := (rng.natLt 3).2
    let x' := if step = 0 then x - 1
      else if step = 1 then min (x + 1) (width - 1)
      else x
    let b := (r1.natLt 10).1
    let r2 := (r1.natLt 10).2
    if b < 3 then
      let side := (r2.bool).1
      let r3 := (r2.bool).2
      let bx := if side then x' - 1 else min (x' + 1) (width - 1)
      ((x, y) :: (bx, y) :: (boltWalk width rows (y + 1) x' r3).1,
        (boltWalk width rows (y + 1) x' r3).2)
    else
      ((x, y) :: (boltWalk width rows (y + 1) x' r2).1,
        (boltWalk width rows (y + 1) x' r2).2)

/-- Bolt generation on a new strike: starting column drawn from
`rng.u16(2..width.saturating_sub(2).max(3))`, then the downward walk. -/
def genBolt (width height : Nat) (rng : Rng) : List (Nat × Nat) × Rng :=
  let bolt_x := 2 + (rng.natLt (Nat.max (width - 2) 3 - 2)).1
  boltWalk width height 0 bolt_x (rng.natLt (Nat.max (width - 2) 3 - 2)).2

/-- `ParticleSystem::update_lightning`. -/
def ParticleSystem.update_lightning (ps : ParticleSystem)
    (width height : Nat) (now : ℚ) : ParticleSystem :=
  if ps.lightning.active then
    let fr := ps.lightning.frames_remaining - 1
    { ps with
      lightning := { ps.lightning with frames_remaining := fr, active := fr != 0 } }
  else if ps.lightning.next_strike ≤ now - ps.lightning.timer then
    { ps with
      rng :=
        ((genBolt width height ps.rng).2.natLt
          (LIGHTNING_MAX_INTERVAL_SECS - LIGHTNING_MIN_INTERVAL_SECS + 1)).2
      lightning :=
        { active := true
          frames_remaining := LIGHTNING_FLASH_FRAMES
          bolt_segments := (genBolt width height ps.rng).1
          next_strike :=
            (LIGHTNING_MIN_INTERVAL_SECS : ℚ) +
              ((genBolt width height ps.rng).2.natLt
                (LIGHTNING_MAX_INTERVAL_SECS - LIGHTNING_MIN_INTERVAL_SECS + 1)).1
          timer := now } }
  else ps

/-- Steps 5–9 of `ParticleSystem::update` (speed multiplier, kinematics
pass, transition-cooldown drain, spawn throttle, effect-specific spawn),
split out over the state reached after the auto-cycle/season steps so the
spawn-phase lemmas apply to an arbitrary such state. -/
def updateTail (ps2 : ParticleSystem) (width height : Nat) (dt now : ℚ)
    (secs : Nat) (sinf : ℚ → ℚ) (fc : Nat) : ParticleSystem :=
  let moved :=
    (ps2.particles.map (moveParticle (speedMult ps2.speed) (dt * 10))).filter
      (keepParticle (width : ℚ) (height : ℚ))
  if 0 < ps2.transition_cooldown then
    { ps2 with
      frame_count := fc
      particles := moved
      transition_cooldown := ps2.transition_cooldown - 1 }
  else if fc % 6 ≠ 0 then { ps2 with frame_count := fc, particles := moved }
  else
    match ps2.effect with
    | WeatherEffect.Rain =>
      ParticleSystem.spawn_rain
        { ps2 with frame_count := fc, particles := moved } width ps2.intensity
    | WeatherEffect.Snow =>
      ParticleSystem.spawn_snow
        { ps2 with frame_count := fc, particles := moved } width ps2.intensity sinf
    | WeatherEffect.Lightning =>
      ParticleSystem.update_lightning
        (ParticleSystem.spawn_rain
          { ps2 with frame_count := fc, particles := moved } width ps2.intensity)
        width height now
    | WeatherEffect.Seasons =>
      ParticleSystem.spawn_season
        { ps2 with frame_count := fc, particles := moved } width height
        ps2.intensity secs sinf

/-- `ParticleSystem::update(width, height, dt)`, with wall-clock inputs
(`now` for `Instant::now()`/`elapsed`, `secs` for `detect_season`) and the
sine stand-in made explicit: enabled guard, frame-counter increment
(`u32::wrapping_add`), auto-cycle, season auto-rotate, then `updateTail`. -/
def ParticleSystem.update (ps : ParticleSystem) (width height : Nat)
    (dt now : ℚ) (secs : Nat) (sinf : ℚ → ℚ) : ParticleSystem :=
  if ps.enabled = false then ps
  else
    let fc := (ps.frame_count + 1) % 4294967296
    let ps1 :=
      if ps.cycle_mode = CycleMode.Auto ∧ CYCLE_DURATION ≤ now - ps.cycle_timer then
        { ps with
          effect := nextEffect ps.effect
          transition_cooldown := 30
          cycle_timer := now }
      else ps
    let ps2 :=
      if ps1.effect = WeatherEffect.Seasons ∧
          ps1.season_mode = SeasonMode.AutoRotate ∧
          15 ≤ now - ps1.season_timer then
        { ps1 with
          current_season := nextSeason ps1.current_season
          season_timer := now }
      else ps1
    updateTail ps2 width height dt now secs sinf fc

/-- `settings_change(ps, row, right)`, with `Instant::now()` explicit. -/
def settings_change (ps : ParticleSystem) (row : SettingsRow) (right : Bool)
    (now : ℚ) : ParticleSystem :=
  match row with
  | SettingsRow.Effect =>
    { ps with
      effect := if right then nextEffect ps.effect else prevEffect ps.effect
      particles := []
      transition_cooldown := 30
      cycle_timer := now }
  | SettingsRow.CycleMode =>
    { ps with
      cycle_mode :=
        match ps.cycle_mode with
        | CycleMode.Auto => CycleMode.Pinned
        | CycleMode.Pinned => CycleMode.Auto
      cycle_timer := now }
  | SettingsRow.SeasonMode =>
    { ps with
      season_mode :=
        if right then
          match ps.season_mode with
          | SeasonMode.AutoRotate => SeasonMode.RealSeason
          | SeasonMode.RealSeason => SeasonMode.NatureBlend
          | SeasonMode.NatureBlend => SeasonMode.AutoRotate
        else
          match ps.season_mode with
          | SeasonMode.AutoRotate => SeasonMode.NatureBlend
          | SeasonMode.RealSeason => SeasonMode.AutoRotate
          | SeasonMode.NatureBlend => SeasonMode.RealSeason
      season_timer := now }
  | SettingsRow.Intensity =>
    { ps with
      intensity :=
        if right then min (ps.intensity + 1) 5 else max (ps.intensity - 1) 1 }
  | SettingsRow.Speed =>
    { ps with
      speed :=
        if right then min (ps.speed + 1) 10 else max (ps.speed - 1) 1 }

-- ── Compositor ──────────────────────────────────────────────────────────

/-- One terminal cell of the ratatui buffer: glyph, foreground, background. -/
structure Cell where
  symbol : String
  fg : Color
  bg : Color
deriving DecidableEq, Repr

/-- The frame's cell grid (`frame.buffer_mut()` with its `area`). -/
structure Grid where
  width : Nat
  height : Nat
  cells : Nat → Nat → Cell

/-- `buf.cell_mut((x, y))`: apply `f` to the cell when `(x, y)` is inside the
area, otherwise do nothing. -/
def Grid.touch (g : Grid) (x y : Nat) (f : Cell → Cell) : Grid :=
  if x < g.width ∧ y < g.height then
    { g with
      cells := fun i j => if i = x ∧ j = y then f (g.cells i j) else g.cells i j }
  else g

/-- The clock's per-pixel write: blank cell gets the block glyph and clock
foreground; occupied cell gets only the background "glow". -/
def clockBody (c : Cell) : Cell :=
  if c.symbol = " " then { c with symbol := "█", fg := Color.mk 70 80 130 }
  else { c with bg := Color.mk 22 24 40 }

/-- Write a glyph and foreground only into a blank cell (particles, bolt). -/
def writeIfBlank (sym : String) (fg : Color) (c : Cell) : Cell :=
  if c.symbol = " " then { c with symbol := sym, fg := fg } else c

/-- Set only the background of a blank cell (lightning flash tint). -/
def tintIfBlank (bg : Color) (c : Cell) : Cell :=
  if c.symbol = " " then { c with bg := bg } else c

/-- The 3-column × 5-row bitmap font for digits 0-9 and the colon. -/
def CLOCK_GLYPHS : List (List Nat) :=
  [[0b111, 0b101, 0b101, 0b101, 0b111],
   [0b010, 0b110, 0b010, 0b010, 0b111],
   [0b111, 0b001, 0b111, 0b100, 0b111],
   [0b111, 0b001, 0b111, 0b001, 0b111],
   [0b101, 0b101, 0b111, 0b001, 0b001],
   [0b111, 0b100, 0b111, 0b001, 0b111],
   [0b111, 0b100, 0b111, 0b101, 0b111],
   [0b111, 0b001, 0b001, 0b001, 0b001],
   [0b111, 0b101, 0b111, 0b101, 0b111],
   [0b111, 0b101, 0b111, 0b001, 0b111],
   [0b000, 0b010, 0b000, 0b010, 0b000]]

/-- Cell positions of the doubled lit pixels of one glyph placed at column
`gx` (rows at `oy = 1`): for each set bit, two cells `("██")`. -/
def glyphPixels (glyph : List Nat) (gx : Nat) : List (Nat × Nat) :=
  (List.range 5).flatMap fun row =>
    (List.range 3).flatMap fun col =>
      if glyph.getD row 0 &&& (1 <<< (2 - col)) ≠ 0 then
        (List.range 2).map fun dx => (gx + col * 2 + dx, 1 + row)
      else []

/-- `render_clock`, as a function of the local time `(h, m, s)`. -/
def render_clock (g : Grid) (h m s : Nat) : Grid :=
  let colonIdx : Nat := if s % 2 = 0 then 10 else 18446744073709551615
  let digits : List Nat := [h / 10, h % 10, 10, m / 10, m % 10]
  if g.width < 38 + 4 ∨ g.height < 5 + 4 then g
  else
    let ox := (g.width - 38) / 2
    (List.range 5).foldl
      (fun acc gi =>
        let idx := digits.getD gi 0
        if gi = 2 ∧ idx ≠ colonIdx then acc
        else if CLOCK_GLYPHS.length ≤ idx then acc
        else
          let glyph := CLOCK_GLYPHS.getD idx []
          let gx := ox + gi * 8
          (glyphPixels glyph gx).foldl
            (fun a pos => a.touch pos.1 pos.2 clockBody) acc)
      g

/-- Rust's `f32 as u16` on our rational model: truncate toward zero, clamp
into `[0, 65535]`. -/
def ratToU16 (q : ℚ) : Nat :=
  if q < 0 then 0 else min (q.num.toNat / q.den) 65535

/-- All cell positions of the area in the tint loop's order. -/
def allCells (g : Grid) : List (Nat × Nat) :=
  (List.range g.height).flatMap fun y => (List.range g.width).map fun x => (x, y)

/-- Bolt glyph keyed by `row mod 3`. -/
def boltSym (row : Nat) : String :=
  if row % 3 = 0 then "╲" else if row % 3 = 1 then "│" else "╱"

/-- `render_particles`: lightning flash tint, bolt glyphs, then particles,
all writing only into blank cells. -/
def render_particles (g : Grid) (ps : ParticleSystem) : Grid :=
  if ps.enabled = false then g
  else
    let g1 :=
      if ps.lightning.active ∧ ps.effect = WeatherEffect.Lightning then
        let fr := ps.lightning.frames_remaining
        let tint : Option Color :=
          if 13 ≤ fr ∧ fr ≤ 18 then some (Color.mk 15 15 30)
          else if 7 ≤ fr ∧ fr ≤ 12 then some (Color.mk 30 30 55)
          else if 1 ≤ fr ∧ fr ≤ 6 then some (Color.mk 18 18 35)
          else none
        let ga :=
          match tint with
          | some bg =>
            (allCells g).foldl (fun a pos => a.touch pos.1 pos.2 (tintIfBlank bg)) g
          | none => g
        if 12 ≤ fr then
          ps.lightning.bolt_segments.foldl
            (fun a seg =>
              if seg.1 < g.width ∧ seg.2 < g.height then
                a.touch seg.1 seg.2
                  (writeIfBlank (boltSym seg.2) (Color.mk 180 180 100))
              else a)
            ga
        else ga
      else g
    ps.particles.foldl
      (fun a p =>
        let px := ratToU16 p.x
        let py := ratToU16 p.y
        if px < g.width ∧ py < g.height then
          a.touch px py (writeIfBlank p.symbol p.fg)
        else a)
      g1

/-- One decorative render pass in the order of `ui()`: clock body, then the
weather layer (lightning tint, bolt, particles). -/
def render_pass (g : Grid) (h m s : Nat) (ps : ParticleSystem) : Grid :=
  render_particles (render_clock g h m s) ps

-- ── Shared infrastructure for the proofs ────────────────────────────────

/-- A concrete all-zero draw stream, used to instantiate scenarios. -/
def rng0 : Rng := ⟨fun _ => 0, fun _ => 0, 0, 0⟩

/-- A concrete sine stand-in for scenario instances. -/
def sinf0 : ℚ → ℚ := fun _ => 0

/-- A cell transformer that never changes the glyph or foreground of an
occupied (non-blank) cell. -/
def PreservesOccupied (f : Cell → Cell) : Prop :=
  ∀ c : Cell, c.symbol ≠ " " → (f c).symbol = c.symbol ∧ (f c).fg = c.fg

/-- Grid `g'` agrees with `g` on the glyph and foreground of every cell that
is occupied in `g`. -/
def OccAgree (g g' : Grid) : Prop :=
  ∀ x y, (g.cells x y).symbol ≠ " " →
    (g'.cells x y).symbol = (g.cells x y).symbol ∧
    (g'.cells x y).fg = (g.cells x y).fg

theorem occAgree_refl (g : Grid) : OccAgree g g := fun _ _ _ => ⟨rfl, rfl⟩

theorem occAgree_trans {g₁ g₂ g₃ : Grid} (h₁ : OccAgree g₁ g₂)
    (h₂ : OccAgree g₂ g₃) : OccAgree g₁ g₃ := by
  intro x y hx
  obtain ⟨hs, hf⟩ := h₁ x y hx
  have hx₂ : (g₂.cells x y).symbol ≠ " " := by rw [hs]; exact hx
  obtain ⟨hs', hf'⟩ := h₂ x y hx₂
  exact ⟨hs'.trans hs, hf'.trans hf⟩

theorem touch_occAgree {f : Cell → Cell} (hf : PreservesOccupied f)
    (g : Grid) (x y : Nat) : OccAgree g (g.touch x y f) := by
  intro i j hij
  unfold Grid.touch
  split
  · simp only
    split
    · exact hf _ hij
    · exact ⟨rfl, rfl⟩
  · exact ⟨rfl, rfl⟩

theorem foldl_occAgree {α : Type} (F : Grid → α → Grid)
    (hF : ∀ g a, OccAgree g (F g a)) (l : List α) (g : Grid) :
    OccAgree g (l.foldl F g) := by
  induction l generalizing g with
  | nil => exact occAgree_refl g
  | cons a t ih => exact occAgree_trans (hF g a) (ih (F g a))

theorem clockBody_preserves : PreservesOccupied clockBody := by
  intro c hc
  unfold clockBody
  rw [if_neg hc]
  exact ⟨rfl, rfl⟩

theorem writeIfBlank_preserves (sym : String) (fg : Color) :
    PreservesOccupied (writeIfBlank sym fg) := by
  intro c hc
  unfold writeIfBlank
  rw [if_neg hc]
  exact ⟨rfl, rfl⟩

theorem tintIfBlank_preserves (bg : Color) :
    PreservesOccupied (tintIfBlank bg) := by
  intro c hc
  unfold tintIfBlank
  rw [if_neg hc]
  exact ⟨rfl, rfl⟩

theorem render_clock_occAgree (g : Grid) (h m s : Nat) :
    OccAgree g (render_clock g h m s) := by
  have main : ∀ (digits : List Nat) (colonIdx : Nat),
      OccAgree g
        (if g.width < 38 + 4 ∨ g.height < 5 + 4 then g
         else
           (List.range 5).foldl
             (fun acc gi =>
               let idx := digits.getD gi 0
               if gi = 2 ∧ idx ≠ colonIdx then acc
               else if CLOCK_GLYPHS.length ≤ idx then acc
               else
                 let glyph := CLOCK_GLYPHS.getD idx []
                 let gx := (g.width - 38) / 2 + gi * 8
                 (glyphPixels glyph gx).foldl
                   (fun a pos => a.touch pos.1 pos.2 clockBody) acc)
             g) := by
    intro digits colonIdx
    split
    · exact occAgree_refl g
    · apply foldl_occAgree
      intro g' gi
      dsimp only
      split
      · exact occAgree_refl g'
      · split
        · exact occAgree_refl g'
        · exact foldl_occAgree _
            (fun (g'' : Grid) (pos : Nat × Nat) =>
              touch_occAgree clockBody_preserves g'' pos.1 pos.2) _ g'
  exact main [h / 10, h % 10, 10, m / 10, m % 10]
    (if s % 2 = 0 then 10 else 18446744073709551615)

theorem render_particles_occAgree (g : Grid) (ps : ParticleSystem) :
    OccAgree g (render_particles g ps) := by
  unfold render_particles
  split
  · exact occAgree_refl g
  · have hmid : OccAgree g
        (if ps.lightning.active ∧ ps.effect = WeatherEffect.Lightning then
          let fr := ps.lightning.frames_remaining
          let tint : Option Color :=
            if 13 ≤ fr ∧ fr ≤ 18 then some (Color.mk 15 15 30)
            else if 7 ≤ fr ∧ fr ≤ 12 then some (Color.mk 30 30 55)
            else if 1 ≤ fr ∧ fr ≤ 6 then some (Color.mk 18 18 35)
            else none
          let ga :=
            match tint with
            | some bg =>
              (allCells g).foldl
                (fun a pos => a.touch pos.1 pos.2 (tintIfBlank bg)) g
            | none => g
          if 12 ≤ fr then
            ps.lightning.bolt_segments.foldl
              (fun a seg =>
                if seg.1 < g.width ∧ seg.2 < g.height then
                  a.touch seg.1 seg.2
                    (writeIfBlank (boltSym seg.2) (Color.mk 180 180 100))
                else a)
              ga
          else ga
        else g) := by
      split
      · have htint : ∀ (t : Option Color),
            OccAgree g (match t with
              | some bg => (allCells g).foldl
                  (fun a pos => a.touch pos.1 pos.2 (tintIfBlank bg)) g
              | none => g) := by
          intro t
          match t with
          | some bg =>
            exact foldl_occAgree _
              (fun (g' : Grid) (pos : Nat × Nat) =>
                touch_occAgree (tintIfBlank_preserves bg) g' pos.1 pos.2) _ g
          | none => exact occAgree_refl g
        dsimp only
        split
        · apply occAgree_trans (htint _)
          apply foldl_occAgree
          intro g' seg
          show OccAgree g'
            (if seg.1 < g.width ∧ seg.2 < g.height then
              g'.touch seg.1 seg.2
                (writeIfBlank (boltSym seg.2) (Color.mk 180 180 100))
            else g')
          split
          · exact touch_occAgree (writeIfBlank_preserves _ _) g' seg.1 seg.2
          · exact occAgree_refl g'
        · exact htint _
      · exact occAgree_refl g
    refine occAgree_trans hmid ?_
    apply foldl_occAgree
    intro g' p
    show OccAgree g'
      (if ratToU16 p.x < g.width ∧ ratToU16 p.y < g.height then
        g'.touch (ratToU16 p.x) (ratToU16 p.y) (writeIfBlank p.symbol p.fg)
      else g')
    split
    · exact touch_occAgree (writeIfBlank_preserves _ _) g' _ _
    · exact occAgree_refl g'

-- ── Spawn-loop and update-shape lemmas ──────────────────────────────────

theorem spawnLoop_append (mk : Rng → Particle × Rng) :
    ∀ (n : Nat) (parts : List Particle) (rng : Rng),
      ∃ ex, (spawnLoop mk n parts rng).1 = parts ++ ex := by
  intro n
  induction n with
  | zero => intro parts rng; exact ⟨[], by simp [spawnLoop]⟩
  | succ k ih =>
    intro parts rng
    by_cases hfull : MAX_PARTICLES ≤ parts.length
    · exact ⟨[], by simp [spawnLoop, hfull]⟩
    · obtain ⟨ex, hx⟩ := ih (parts ++ [(mk rng).1]) (mk rng).2
      refine ⟨(mk rng).1 :: ex, ?_⟩
      simp only [spawnLoop, if_neg hfull, hx, List.append_assoc,
        List.singleton_append]

theorem spawnLoop_length (mk : Rng → Particle × Rng) :
    ∀ (n : Nat) (parts : List Particle) (rng : Rng),
      parts.length ≤ MAX_PARTICLES →
      (spawnLoop mk n parts rng).1.length ≤ MAX_PARTICLES := by
  intro n
  induction n with
  | zero => intro parts rng h; simpa [spawnLoop] using h
  | succ k ih =>
    intro parts rng h
    by_cases hfull : MAX_PARTICLES ≤ parts.length
    · simpa [spawnLoop, hfull] using h
    · have hlen : (parts ++ [(mk rng).1]).length ≤ MAX_PARTICLES := by
        simp only [List.length_append, List.length_singleton]
        omega
      simpa [spawnLoop, hfull] using ih _ (mk rng).2 hlen

theorem spawnLoop_of_full (mk : Rng → Particle × Rng) (n : Nat)
    (parts : List Particle) (rng : Rng) (h : MAX_PARTICLES ≤ parts.length) :
    spawnLoop mk n parts rng = (parts, rng) := by
  cases n with
  | zero => rfl
  | succ k => simp [spawnLoop, h]

theorem spawn_rain_append (ps : ParticleSystem) (w n : Nat) :
    ∃ ex, (ps.spawn_rain w n).particles = ps.particles ++ ex :=
  spawnLoop_append _ n ps.particles ps.rng

theorem spawn_snow_append (ps : ParticleSystem) (w n : Nat) (sinf : ℚ → ℚ) :
    ∃ ex, (ps.spawn_snow w n sinf).particles = ps.particles ++ ex :=
  spawnLoop_append _ n ps.particles ps.rng

theorem spawn_season_append (ps : ParticleSystem) (w h n secs : Nat)
    (sinf : ℚ → ℚ) :
    ∃ ex, (ps.spawn_season w h n secs sinf).particles = ps.particles ++ ex :=
  spawnLoop_append _ n ps.particles ps.rng

theorem spawn_rain_of_full (ps : ParticleSystem) (w n : Nat)
    (h : MAX_PARTICLES ≤ ps.particles.length) :
    (ps.spawn_rain w n).particles = ps.particles := by
  show (spawnLoop _ n ps.particles ps.rng).1 = ps.particles
  rw [spawnLoop_of_full _ n ps.particles ps.rng h]

theorem spawn_snow_of_full (ps : ParticleSystem) (w n : Nat) (sinf : ℚ → ℚ)
    (h : MAX_PARTICLES ≤ ps.particles.length) :
    (ps.spawn_snow w n sinf).particles = ps.particles := by
  show (spawnLoop _ n ps.particles ps.rng).1 = ps.particles
  rw [spawnLoop_of_full _ n ps.particles ps.rng h]

theorem spawn_season_of_full (ps : ParticleSystem) (w h n secs : Nat)
    (sinf : ℚ → ℚ) (hfull : MAX_PARTICLES ≤ ps.particles.length) :
    (ps.spawn_season w h n secs sinf).particles = ps.particles := by
  show (spawnLoop _ n ps.particles ps.rng).1 = ps.particles
  rw [spawnLoop_of_full _ n ps.particles ps.rng hfull]

theorem update_lightning_particles (ps : ParticleSystem) (w h : Nat)
    (now : ℚ) :
    (ps.update_lightning w h now).particles = ps.particles := by
  unfold ParticleSystem.update_lightning
  split
  · rfl
  · split <;> rfl

/-- The transition-cooldown value after the auto-cycle step of `update`. -/
def cooldownAfterCycle (ps : ParticleSystem) (now : ℚ) : Nat :=
  if ps.cycle_mode = CycleMode.Auto ∧ CYCLE_DURATION ≤ now - ps.cycle_timer then 30
  else ps.transition_cooldown

theorem updateTail_append (ps2 : ParticleSystem) (w h : Nat) (dt now : ℚ)
    (secs : Nat) (sinf : ℚ → ℚ) (fc : Nat) :
    ∃ ex, (updateTail ps2 w h dt now secs sinf fc).particles =
      (ps2.particles.map (moveParticle (speedMult ps2.speed) (dt * 10))).filter
        (keepParticle (w : ℚ) (h : ℚ)) ++ ex := by
  unfold updateTail
  by_cases hcd : 0 < ps2.transition_cooldown
  · exact ⟨[], by simp [hcd]⟩
  · by_cases hfc : fc % 6 ≠ 0
    · exact ⟨[], by simp [hcd, hfc]⟩
    · simp only [if_neg hcd, if_neg hfc]
      cases hE : ps2.effect <;> simp only [hE]
      · exact spawn_rain_append _ w _
      · exact spawn_snow_append _ w _ sinf
      · obtain ⟨ex, hx⟩ := spawn_rain_append
          { ps2 with
            effect := WeatherEffect.Lightning
            frame_count := fc
            particles :=
              (ps2.particles.map
                (moveParticle (speedMult ps2.speed) (dt * 10))).filter
                (keepParticle (w : ℚ) (h : ℚ)) } w ps2.intensity
        refine ⟨ex, ?_⟩
        rw [update_lightning_particles]
        exact hx
      · exact spawn_season_append _ w h _ secs sinf

theorem updateTail_no_spawn (ps2 : ParticleSystem) (w h : Nat) (dt now : ℚ)
    (secs : Nat) (sinf : ℚ → ℚ) (fc : Nat)
    (hcond : ¬(fc % 6 = 0 ∧ ps2.transition_cooldown = 0)) :
    (updateTail ps2 w h dt now secs sinf fc).particles =
      (ps2.particles.map (moveParticle (speedMult ps2.speed) (dt * 10))).filter
        (keepParticle (w : ℚ) (h : ℚ)) := by
  unfold updateTail
  by_cases hcd : 0 < ps2.transition_cooldown
  · simp [hcd]
  · by_cases hfc : fc % 6 ≠ 0
    · simp [hcd, hfc]
    · exact absurd ⟨by omega, by omega⟩ hcond

theorem updateTail_length (ps2 : ParticleSystem) (w h : Nat) (dt now : ℚ)
    (secs : Nat) (sinf : ℚ → ℚ) (fc : Nat)
    (hlen : ps2.particles.length ≤ MAX_PARTICLES) :
    (updateTail ps2 w h dt now secs sinf fc).particles.length ≤ MAX_PARTICLES := by
  have hmoved :
      ((ps2.particles.map (moveParticle (speedMult ps2.speed) (dt * 10))).filter
        (keepParticle (w : ℚ) (h : ℚ))).length ≤ MAX_PARTICLES :=
    le_trans (le_trans (List.length_filter_le _ _)
      (le_of_eq (List.length_map _ _))) hlen
  unfold updateTail
  by_cases hcd : 0 < ps2.transition_cooldown
  · simpa [hcd] using hmoved
  · by_cases hfc : fc % 6 ≠ 0
    · simpa [hcd, hfc] using hmoved
    · simp only [if_neg hcd, if_neg hfc]
      cases hE : ps2.effect <;> simp only [hE]
      · exact spawnLoop_length _ _ _ _ hmoved
      · exact spawnLoop_length _ _ _ _ hmoved
      · rw [update_lightning_particles]
        exact spawnLoop_length _ _ _ _ hmoved
      · exact spawnLoop_length _ _ _ _ hmoved

theorem update_particles_split (ps : ParticleSystem) (w h : Nat) (dt now : ℚ)
    (secs : Nat) (sinf : ℚ → ℚ) (hen : ps.enabled = true) :
    (∃ ex, (ps.update w h dt now secs sinf).particles =
      (ps.particles.map (moveParticle (speedMult ps.speed) (dt * 10))).filter
        (keepParticle (w : ℚ) (h : ℚ)) ++ ex) ∧
    (¬(((ps.frame_count + 1) % 4294967296) % 6 = 0 ∧
        cooldownAfterCycle ps now = 0) →
      (ps.update w h dt now secs sinf).particles =
        (ps.particles.map (moveParticle (speedMult ps.speed) (dt * 10))).filter
          (keepParticle (w : ℚ) (h : ℚ))) := by
  have key : ∀ q : ParticleSystem,
      q.particles = ps.particles → q.speed = ps.speed →
      q.transition_cooldown = cooldownAfterCycle ps now →
      ∀ fc : Nat,
      (∃ ex, (updateTail q w h dt now secs sinf fc).particles =
        (ps.particles.map (moveParticle (speedMult ps.speed) (dt * 10))).filter
          (keepParticle (w : ℚ) (h : ℚ)) ++ ex) ∧
      (¬(fc % 6 = 0 ∧ cooldownAfterCycle ps now = 0) →
        (updateTail q w h dt now secs sinf fc).particles =
          (ps.particles.map (moveParticle (speedMult ps.speed) (dt * 10))).filter
            (keepParticle (w : ℚ) (h : ℚ))) := by
    intro q hp hs hc fc
    constructor
    · obtain ⟨ex, hx⟩ := updateTail_append q w h dt now secs sinf fc
      rw [hp, hs] at hx
      exact ⟨ex, hx⟩
    · intro hcond
      have hq : ¬(fc % 6 = 0 ∧ q.transition_cooldown = 0) := by
        rw [hc]; exact hcond
      have := updateTail_no_spawn q w h dt now secs sinf fc hq
      rwa [hp, hs] at this
  unfold ParticleSystem.update
  rw [hen]
  simp only [Bool.true_eq_false, if_false]
  apply key
  · split <;> split <;> rfl
  · split <;> split <;> rfl
  · unfold cooldownAfterCycle
    split <;> split <;> rfl

theorem update_length (ps : ParticleSystem) (w h : Nat) (dt now : ℚ)
    (secs : Nat) (sinf : ℚ → ℚ)
    (hlen : ps.particles.length ≤ MAX_PARTICLES) :
    (ps.update w h dt now secs sinf).particles.length ≤ MAX_PARTICLES := by
  by_cases hen : ps.enabled = true
  · unfold ParticleSystem.update
    rw [hen]
    simp only [Bool.true_eq_false, if_false]
    apply updateTail_length
    have hq : ∀ q : ParticleSystem, q.particles = ps.particles →
        q.particles.length ≤ MAX_PARTICLES := by
      intro q hqp
      rw [hqp]
      exact hlen
    apply hq
    split <;> split <;> rfl
  · unfold ParticleSystem.update
    have : ps.enabled = false := by
      cases hps : ps.enabled
      · rfl
      · exact absurd hps hen
    rw [this]
    simpa using hlen

/-- An externally driven operation on the long-lived particle system: one
animation update (with its call-time inputs) or one settings change. -/
inductive Op
  | upd (width height : Nat) (dt now : ℚ) (secs : Nat) (sinf : ℚ → ℚ)
  | setChange (row : SettingsRow) (right : Bool) (now : ℚ)

def applyOp (ps : ParticleSystem) : Op → ParticleSystem
  | Op.upd w h dt now secs sinf => ps.update w h dt now secs sinf
  | Op.setChange row right now => settings_change ps row right now

/-- Run a sequence of operations left to right. -/
def runOps (ps : ParticleSystem) (ops : List Op) : ParticleSystem :=
  ops.foldl applyOp ps

theorem settings_change_particles (ps : ParticleSystem) (row : SettingsRow)
    (right : Bool) (now : ℚ) :
    (settings_change ps row right now).particles = [] ∨
    (settings_change ps row right now).particles = ps.particles := by
  cases row with
  | Effect => exact Or.inl rfl
  | CycleMode => exact Or.inr rfl
  | SeasonMode => exact Or.inr rfl
  | Intensity => exact Or.inr rfl
  | Speed => exact Or.inr rfl

theorem runOps_length (ps : ParticleSystem) (ops : List Op)
    (h : ps.particles.length ≤ MAX_PARTICLES) :
    (runOps ps ops).particles.length ≤ MAX_PARTICLES := by
  induction ops generalizing ps with
  | nil => exact h
  | cons op t ih =>
    show (runOps (applyOp ps op) t).particles.length ≤ MAX_PARTICLES
    apply ih
    cases op with
    | upd w hh dt now secs sinf => exact update_length ps w hh dt now secs sinf h
    | setChange row right now =>
      rcases settings_change_particles ps row right now with hc | hc
      · show (settings_change ps row right now).particles.length ≤ MAX_PARTICLES
        rw [hc]
        simp [MAX_PARTICLES]
      · show (settings_change ps row right now).particles.length ≤ MAX_PARTICLES
        rw [hc]
        exact h

/-- The states of the C6 scenario: a fresh system driven by `update` calls at
width 80, height 24, dt = 16 ms. -/
def c6state : Nat → ParticleSystem
  | 0 => ParticleSystem.new rng0 0 0
  | k + 1 =>
    (c6state k).update 80 24 (16 / 1000) ((16 / 1000) * (k + 1)) 0 sinf0

theorem stepClamp_le (width x step : Nat) (hx : x ≤ width - 1) :
    (if step = 0 then x - 1
      else if step = 1 then min (x + 1) (width - 1) else x) ≤ width - 1 := by
  split
  · omega
  · split
    · exact Nat.min_le_right _ _
    · exact hx

theorem sideClamp_le (width x' : Nat) (side : Bool) (hx : x' ≤ width - 1) :
    (if side then x' - 1 else min (x' + 1) (width - 1)) ≤ width - 1 := by
  cases side
  · exact Nat.min_le_right _ _
  · simp only [if_true]
    omega

theorem boltWalk_bounded (width : Nat) :
    ∀ (rows y x : Nat) (rng : Rng), x ≤ width - 1 →
      ∀ seg ∈ (boltWalk width rows y x rng).1, seg.1 ≤ width - 1 := by
  intro rows
  induction rows with
  | zero =>
    intro y x rng _ seg hseg
    simp [boltWalk] at hseg
  | succ k ih =>
    intro y x rng hx seg hseg
    simp only [boltWalk] at hseg
    have hx' : (if (rng.natLt 3).1 = 0 then x - 1
        else if (rng.natLt 3).1 = 1 then min (x + 1) (width - 1) else x) ≤
        width - 1 := stepClamp_le width x _ hx
    by_cases hb : ((rng.natLt 3).2.natLt 10).1 < 3
    · rw [if_pos hb] at hseg
      rcases List.mem_cons.mp hseg with h1 | hseg2
      · rw [h1]; exact hx
      · rcases List.mem_cons.mp hseg2 with h2 | h3
        · rw [h2]; exact sideClamp_le width _ _ hx'
        · exact ih _ _ _ hx' seg h3
    · rw [if_neg hb] at hseg
      rcases List.mem_cons.mp hseg with h1 | h3
      · rw [h1]; exact hx
      · exact ih _ _ _ hx' seg h3

-- ── Claim theorems ──────────────────────────────────────────────────────

/-- C2: every cell that is non-blank before the decorative layers run keeps
its glyph and foreground color across the clock, lightning and particle
layers; those layers write glyphs only into blank cells, so the only change
a non-blank cell can receive is a background tint. -/
theorem render_pass_preserves_occupied (g : Grid) (h m s : Nat)
    (ps : ParticleSystem) (x y : Nat)
    (hx : (g.cells x y).symbol ≠ " ") :
    ((render_pass g h m s ps).cells x y).symbol = (g.cells x y).symbol ∧
    ((render_pass g h m s ps).cells x y).fg = (g.cells x y).fg :=
  occAgree_trans (render_clock_occAgree g h m s)
    (render_particles_occAgree (render_clock g h m s) ps) x y hx

/-- Witness for C2: a concrete 2×2 grid whose cell (0,0) holds the widget
glyph "A", rendered with a fresh particle system carrying one particle aimed
at that cell; the glyph and foreground survive the pass. -/
theorem render_pass_preserves_occupied_witness :
    ((Grid.mk 2 2 (fun _ _ =>
        Cell.mk "A" (Color.mk 1 2 3) (Color.mk 0 0 0))).cells 0 0).symbol ≠ " " ∧
    (((render_pass
        (Grid.mk 2 2 (fun _ _ => Cell.mk "A" (Color.mk 1 2 3) (Color.mk 0 0 0)))
        12 30 0
        { ParticleSystem.new rng0 0 0 with
          particles := [Particle.mk 0 0 "·" (Color.mk 50 50 50) 1 0 10] }).cells 0 0).symbol =
      ((Grid.mk 2 2 (fun _ _ =>
        Cell.mk "A" (Color.mk 1 2 3) (Color.mk 0 0 0))).cells 0 0).symbol ∧
    ((render_pass
        (Grid.mk 2 2 (fun _ _ => Cell.mk "A" (Color.mk 1 2 3) (Color.mk 0 0 0)))
        12 30 0
        { ParticleSystem.new rng0 0 0 with
          particles := [Particle.mk 0 0 "·" (Color.mk 50 50 50) 1 0 10] }).cells 0 0).fg =
      ((Grid.mk 2 2 (fun _ _ =>
        Cell.mk "A" (Color.mk 1 2 3) (Color.mk 0 0 0))).cells 0 0).fg) :=
  ⟨by decide,
    render_pass_preserves_occupied _ 12 30 0 _ 0 0 (by decide)⟩

/-- C1: starting from any state respecting the capacity, every sequence of
update calls and settings changes keeps the pool at or below 100 particles;
a spawn attempted on a full pool leaves the pool untouched (the batch stops,
nothing is evicted), and every spawn only appends to the existing pool. -/
theorem pool_bounded (ps : ParticleSystem) (ops : List Op)
    (hlen : ps.particles.length ≤ MAX_PARTICLES) :
    (runOps ps ops).particles.length ≤ MAX_PARTICLES ∧
    (MAX_PARTICLES ≤ ps.particles.length →
      (∀ w n, (ps.spawn_rain w n).particles = ps.particles) ∧
      (∀ w n sinf, (ps.spawn_snow w n sinf).particles = ps.particles) ∧
      (∀ w h n secs sinf,
        (ps.spawn_season w h n secs sinf).particles = ps.particles)) ∧
    (∀ w n, ∃ ex, (ps.spawn_rain w n).particles = ps.particles ++ ex) ∧
    (∀ w n sinf, ∃ ex,
      (ps.spawn_snow w n sinf).particles = ps.particles ++ ex) ∧
    (∀ w h n secs sinf, ∃ ex,
      (ps.spawn_season w h n secs sinf).particles = ps.particles ++ ex) := by
  refine ⟨runOps_length ps ops hlen, ?_, ?_, ?_, ?_⟩
  · intro hfull
    exact ⟨fun w n => spawn_rain_of_full ps w n hfull,
      fun w n sinf => spawn_snow_of_full ps w n sinf hfull,
      fun w h n secs sinf => spawn_season_of_full ps w h n secs sinf hfull⟩
  · exact fun w n => spawn_rain_append ps w n
  · exact fun w n sinf => spawn_snow_append ps w n sinf
  · exact fun w h n secs sinf => spawn_season_append ps w h n secs sinf

/-- Witness for C1 at a fresh particle system and the empty op list. -/
theorem pool_bounded_witness :
    (ParticleSystem.new rng0 0 0).particles.length ≤ MAX_PARTICLES ∧
    ((runOps (ParticleSystem.new rng0 0 0) []).particles.length ≤ MAX_PARTICLES ∧
     (MAX_PARTICLES ≤ (ParticleSystem.new rng0 0 0).particles.length →
       (∀ w n, ((ParticleSystem.new rng0 0 0).spawn_rain w n).particles =
         (ParticleSystem.new rng0 0 0).particles) ∧
       (∀ w n sinf, ((ParticleSystem.new rng0 0 0).spawn_snow w n sinf).particles =
         (ParticleSystem.new rng0 0 0).particles) ∧
       (∀ w h n secs sinf,
         ((ParticleSystem.new rng0 0 0).spawn_season w h n secs sinf).particles =
           (ParticleSystem.new rng0 0 0).particles)) ∧
     (∀ w n, ∃ ex, ((ParticleSystem.new rng0 0 0).spawn_rain w n).particles =
       (ParticleSystem.new rng0 0 0).particles ++ ex) ∧
     (∀ w n sinf, ∃ ex,
       ((ParticleSystem.new rng0 0 0).spawn_snow w n sinf).particles =
         (ParticleSystem.new rng0 0 0).particles ++ ex) ∧
     (∀ w h n secs sinf, ∃ ex,
       ((ParticleSystem.new rng0 0 0).spawn_season w h n secs sinf).particles =
         (ParticleSystem.new rng0 0 0).particles ++ ex)) :=
  ⟨by decide, pool_bounded (ParticleSystem.new rng0 0 0) [] (by decide)⟩

/-- C3 (amended): for every width at least 3, every height and every draw
stream, every coordinate in the bolt segment list produced when a strike
begins has x strictly below the width (x is a `Nat`, so 0 ≤ x always holds).
For width < 3 the starting column 2 escapes the viewport, refuting the
unrestricted claim. -/
theorem bolt_coords_in_range (width height : Nat) (rng : Rng)
    (hw : 3 ≤ width) :
    ∀ seg ∈ (genBolt width height rng).1, seg.1 < width := by
  intro seg hseg
  have hM3 : 3 ≤ Nat.max (width - 2) 3 := Nat.le_max_right _ _
  have hMw : Nat.max (width - 2) 3 ≤ width :=
    Nat.max_le.mpr ⟨by omega, hw⟩
  have hmod : (rng.natLt (Nat.max (width - 2) 3 - 2)).1 <
      Nat.max (width - 2) 3 - 2 := by
    show rng.nats rng.npos % (Nat.max (width - 2) 3 - 2) <
      Nat.max (width - 2) 3 - 2
    exact Nat.mod_lt _ (by omega)
  have hstart : 2 + (rng.natLt (Nat.max (width - 2) 3 - 2)).1 ≤ width - 1 := by
    omega
  have := boltWalk_bounded width height 0 _ _ hstart seg hseg
  omega

/-- Witness for C3's amended theorem at width 5, height 4. -/
theorem bolt_coords_in_range_witness :
    3 ≤ 5 ∧ ∀ seg ∈ (genBolt 5 4 rng0).1, seg.1 < 5 :=
  ⟨by decide, bolt_coords_in_range 5 4 rng0 (by decide)⟩

/-- Counterexample to C3 as stated: at width 2 (height 1) the generated bolt
starts at column 2, which is not below the width. -/
theorem bolt_coords_counterexample :
    (2, 0) ∈ (genBolt 2 1 rng0).1 ∧ ¬((2, 0).1 < 2) := by decide

/-- C4: on every update of an enabled system, each pre-existing particle is
moved by exactly `speed_y·mult·dtf` / `drift_x·mult·dtf`, its life drops by
one (saturating), and it stays in the pool exactly when the retention
predicate holds afterwards; the updated pool is that moved-and-filtered list
followed only by newly spawned particles. -/
theorem update_kinematics (ps : ParticleSystem) (w h : Nat) (dt now : ℚ)
    (secs : Nat) (sinf : ℚ → ℚ) (hen : ps.enabled = true) :
    (∀ (mult dtf : ℚ) (p : Particle),
      (moveParticle mult dtf p).y = p.y + p.speed_y * mult * dtf ∧
      (moveParticle mult dtf p).x = p.x + p.drift_x * mult * dtf ∧
      (moveParticle mult dtf p).life = p.life - 1) ∧
    (∀ p : Particle, keepParticle (w : ℚ) (h : ℚ) p = true ↔
      (p.y < (h : ℚ) + 1 ∧ -1 ≤ p.x ∧ p.x < (w : ℚ) + 1 ∧ 0 < p.life)) ∧
    (∃ ex, (ps.update w h dt now secs sinf).particles =
      (ps.particles.map (moveParticle (speedMult ps.speed) (dt * 10))).filter
        (keepParticle (w : ℚ) (h : ℚ)) ++ ex) := by
  refine ⟨fun mult dtf p => ⟨rfl, rfl, rfl⟩, ?_,
    (update_particles_split ps w h dt now secs sinf hen).1⟩
  intro p
  simp [keepParticle, and_assoc]

/-- Witness for C4 at a fresh system, 80×24, dt = 16 ms. -/
theorem update_kinematics_witness :
    (ParticleSystem.new rng0 0 0).enabled = true ∧
    ((∀ (mult dtf : ℚ) (p : Particle),
      (moveParticle mult dtf p).y = p.y + p.speed_y * mult * dtf ∧
      (moveParticle mult dtf p).x = p.x + p.drift_x * mult * dtf ∧
      (moveParticle mult dtf p).life = p.life - 1) ∧
    (∀ p : Particle, keepParticle ((80 : Nat) : ℚ) ((24 : Nat) : ℚ) p = true ↔
      (p.y < ((24 : Nat) : ℚ) + 1 ∧ -1 ≤ p.x ∧ p.x < ((80 : Nat) : ℚ) + 1 ∧
        0 < p.life)) ∧
    (∃ ex, ((ParticleSystem.new rng0 0 0).update 80 24 (16 / 1000) 0 0
        sinf0).particles =
      ((ParticleSystem.new rng0 0 0).particles.map
        (moveParticle (speedMult (ParticleSystem.new rng0 0 0).speed)
          (16 / 1000 * 10))).filter
        (keepParticle ((80 : Nat) : ℚ) ((24 : Nat) : ℚ)) ++ ex)) :=
  ⟨rfl, update_kinematics (ParticleSystem.new rng0 0 0) 80 24 (16 / 1000) 0 0
    sinf0 rfl⟩

/-- C6: an enabled update never spawns unless the post-increment frame
counter is divisible by 6 and the transition cooldown (after the auto-cycle
step) is zero — otherwise the pool is exactly the moved-and-filtered old
pool; and in the concrete scenario (fresh system: effect Rain, intensity 3,
width 80, height 24, dt = 16 ms) six update calls leave the pool empty after
calls 1–5 and spawn exactly 3 ≤ 3 particles on the 6th. -/
theorem spawn_throttle (ps : ParticleSystem) (w h : Nat) (dt now : ℚ)
    (secs : Nat) (sinf : ℚ → ℚ) (hen : ps.enabled = true) :
    (¬(((ps.frame_count + 1) % 4294967296) % 6 = 0 ∧
        cooldownAfterCycle ps now = 0) →
      (ps.update w h dt now secs sinf).particles =
        (ps.particles.map (moveParticle (speedMult ps.speed) (dt * 10))).filter
          (keepParticle (w : ℚ) (h : ℚ))) ∧
    ((c6state 1).particles.length = 0 ∧ (c6state 2).particles.length = 0 ∧
     (c6state 3).particles.length = 0 ∧ (c6state 4).particles.length = 0 ∧
     (c6state 5).particles.length = 0 ∧ (c6state 6).particles.length = 3) :=
  ⟨(update_particles_split ps w h dt now secs sinf hen).2,
    by with_unfolding_all decide⟩

/-- Witness for C6 at a fresh system. -/
theorem spawn_throttle_witness :
    (ParticleSystem.new rng0 0 0).enabled = true ∧
    ((¬((((ParticleSystem.new rng0 0 0).frame_count + 1) % 4294967296) % 6 = 0 ∧
        cooldownAfterCycle (ParticleSystem.new rng0 0 0) (16 / 1000) = 0) →
      ((ParticleSystem.new rng0 0 0).update 80 24 (16 / 1000) (16 / 1000) 0
          sinf0).particles =
        ((ParticleSystem.new rng0 0 0).particles.map
          (moveParticle (speedMult (ParticleSystem.new rng0 0 0).speed)
            (16 / 1000 * 10))).filter
          (keepParticle ((80 : Nat) : ℚ) ((24 : Nat) : ℚ))) ∧
    ((c6state 1).particles.length = 0 ∧ (c6state 2).particles.length = 0 ∧
     (c6state 3).particles.length = 0 ∧ (c6state 4).particles.length = 0 ∧
     (c6state 5).particles.length = 0 ∧ (c6state 6).particles.length = 3)) :=
  ⟨rfl, spawn_throttle (ParticleSystem.new rng0 0 0) 80 24 (16 / 1000)
    (16 / 1000) 0 sinf0 rfl⟩

/-- C8 (amended): a rain particle spawned as light mist (heavy draw false)
has the small dot glyph, the dim gray color, fall speed in [0.5, 0.8], and —
unless the independent wind roll (byte < 30, ≈ 12%) succeeds — zero
horizontal drift; when the wind roll succeeds it keeps the dot glyph but
gets a rightward drift in [0.1, 0.2). The unconditional "zero drift" of the
original claim is refuted by the counterexample below. -/
theorem rain_light_particle (width : Nat) (rng : Rng)
    (hf : UnitFloats rng) (hlight : (rng.bool).1 = false) :
    (mkRainParticle width rng).1.symbol = "·" ∧
    (mkRainParticle width rng).1.fg = Color.mk 50 50 50 ∧
    (1 / 2 : ℚ) ≤ (mkRainParticle width rng).1.speed_y ∧
    (mkRainParticle width rng).1.speed_y ≤ 4 / 5 ∧
    (if ((rng.bool).2.u8).1 < 30 then
      (1 / 10 : ℚ) ≤ (mkRainParticle width rng).1.drift_x ∧
        (mkRainParticle width rng).1.drift_x < 1 / 5
     else (mkRainParticle width rng).1.drift_x = 0) := by
  have hl : (rng.nats rng.npos % 2 == 1) = false := hlight
  have hfs := hf (rng.fpos + 1 + 1)
  have hfd := hf (rng.fpos + 1 + 1 + 1)
  by_cases hwind : rng.nats (rng.npos + 1) % 256 < 30
  · simp only [mkRainParticle, Rng.bool, Rng.nextNat, Rng.u8, Rng.natLt,
      Rng.f32, hl, Bool.false_eq_true, if_false, if_pos hwind,
      decide_eq_true_eq, Bool.and_eq_true]
    exact ⟨by simp, trivial, by linarith [hfs.1], by linarith [hfs.2],
      by linarith [hfd.1], by linarith [hfd.2]⟩
  · simp only [mkRainParticle, Rng.bool, Rng.nextNat, Rng.u8, Rng.natLt,
      Rng.f32, hl, Bool.false_eq_true, if_false, if_neg hwind,
      decide_eq_true_eq, Bool.and_eq_true]
    exact ⟨by simp, trivial, by linarith [hfs.1], by linarith [hfs.2], trivial⟩

/-- Witness for C8's amended theorem at the all-zero draw stream (light
particle, wind roll succeeds). -/
theorem rain_light_particle_witness :
    UnitFloats rng0 ∧ (rng0.bool).1 = false ∧
    ((mkRainParticle 80 rng0).1.symbol = "·" ∧
     (mkRainParticle 80 rng0).1.fg = Color.mk 50 50 50 ∧
     (1 / 2 : ℚ) ≤ (mkRainParticle 80 rng0).1.speed_y ∧
     (mkRainParticle 80 rng0).1.speed_y ≤ 4 / 5 ∧
     (if ((rng0.bool).2.u8).1 < 30 then
       (1 / 10 : ℚ) ≤ (mkRainParticle 80 rng0).1.drift_x ∧
         (mkRainParticle 80 rng0).1.drift_x < 1 / 5
      else (mkRainParticle 80 rng0).1.drift_x = 0)) :=
  ⟨fun i => ⟨le_refl 0, by norm_num [rng0]⟩, rfl,
    rain_light_particle 80 rng0 (fun i => ⟨le_refl 0, by norm_num [rng0]⟩) rfl⟩

/-- Counterexample to C8 as stated: with the all-zero draw stream the spawned
rain particle is light (heavy draw false, dot glyph, dim gray) yet has
drift 0.1 ≠ 0, because the wind roll is applied regardless of heaviness. -/
theorem rain_light_drift_counterexample :
    (rng0.bool).1 = false ∧
    (mkRainParticle 80 rng0).1.symbol = "·" ∧
    (mkRainParticle 80 rng0).1.fg = Color.mk 50 50 50 ∧
    (mkRainParticle 80 rng0).1.drift_x = 1 / 10 ∧ ¬((1 / 10 : ℚ) = 0) := by
  with_unfolding_all decide

/-- C5: changing the `effect` setting in either direction empties the pool,
arms a 30-step transition cooldown, and resets the cycle timer, whatever the
prior state. -/
theorem settings_change_effect_clears (ps : ParticleSystem) (right : Bool)
    (now : ℚ) :
    (settings_change ps SettingsRow.Effect right now).particles = [] ∧
    (settings_change ps SettingsRow.Effect right now).transition_cooldown = 30 ∧
    (settings_change ps SettingsRow.Effect right now).cycle_timer = now := by
  cases right <;> exact ⟨rfl, rfl, rfl⟩

/-- C7: the kinematics speed multiplier is the linear map
`0.2 + (speed − 1) · 2.8/9` on `[1,10]`, equals 0.2 at speed 1 and 3.0 at
speed 10, and the per-call vertical displacement at speed 10 is exactly 15
times the one at speed 1. -/
theorem speedMult_linear (speed : Nat) (_h1 : 1 ≤ speed) (_h10 : speed ≤ 10) :
    speedMult speed = 0.2 + ((speed : ℚ) - 1) * (2.8 / 9) ∧
    speedMult 1 = 0.2 ∧ speedMult 10 = 3 ∧
    ∀ (p : Particle) (dtf : ℚ),
      (moveParticle (speedMult 10) dtf p).y - p.y =
        15 * ((moveParticle (speedMult 1) dtf p).y - p.y) := by
  refine ⟨rfl, by norm_num [speedMult], by norm_num [speedMult], ?_⟩
  intro p dtf
  simp only [moveParticle]
  have h1' : speedMult 1 = 0.2 := by norm_num [speedMult]
  have h10' : speedMult 10 = 3 := by norm_num [speedMult]
  rw [h1', h10']
  ring

/-- Witness for C7 at speed 5. -/
theorem speedMult_linear_witness :
    1 ≤ 5 ∧ (5 : Nat) ≤ 10 ∧
    (speedMult 5 = 0.2 + ((5 : ℚ) - 1) * (2.8 / 9) ∧
     speedMult 1 = 0.2 ∧ speedMult 10 = 3 ∧
     ∀ (p : Particle) (dtf : ℚ),
       (moveParticle (speedMult 10) dtf p).y - p.y =
         15 * ((moveParticle (speedMult 1) dtf p).y - p.y)) :=
  ⟨by decide, by decide, speedMult_linear 5 (by decide) (by decide)⟩

/-- C9: the season derived from the wall-clock date is Summer whenever the
civil month is July and Winter whenever it is January (so in particular for
every mid-July and mid-January date). -/
theorem detect_season_july_january (secs : Nat) :
    (civilMonth secs = 7 → detect_season secs = Season.Summer) ∧
    (civilMonth secs = 1 → detect_season secs = Season.Winter) := by
  constructor
  · intro h
    unfold detect_season
    rw [h]
    norm_num
  · intro h
    unfold detect_season
    rw [h]
    norm_num

/-- Witness for C9: 2026-07-15 (Unix 1784073600) is in July and maps to
Summer; 2026-01-15 (Unix 1768435200) is in January and maps to Winter. -/
theorem detect_season_july_january_witness :
    civilMonth 1784073600 = 7 ∧ detect_season 1784073600 = Season.Summer ∧
    civilMonth 1768435200 = 1 ∧ detect_season 1768435200 = Season.Winter :=
  ⟨by decide, (detect_season_july_january 1784073600).1 (by decide),
   by decide, (detect_season_july_january 1768435200).2 (by decide)⟩

/-- C10: a freshly created particle system has an empty pool, effect Rain,
cycle mode Auto, season mode RealSeason, intensity 3, speed 5, enabled true,
frame counter 0, cooldown 0, and an inactive lightning state whose first
strike interval is 5 seconds. -/
theorem particleSystem_new_fields (rng : Rng) (now : ℚ) (secs : Nat) :
    (ParticleSystem.new rng now secs).particles = [] ∧
    (ParticleSystem.new rng now secs).effect = WeatherEffect.Rain ∧
    (ParticleSystem.new rng now secs).cycle_mode = CycleMode.Auto ∧
    (ParticleSystem.new rng now secs).season_mode = SeasonMode.RealSeason ∧
    (ParticleSystem.new rng now secs).intensity = 3 ∧
    (ParticleSystem.new rng now secs).speed = 5 ∧
    (ParticleSystem.new rng now secs).enabled = true ∧
    (ParticleSystem.new rng now secs).frame_count = 0 ∧
    (ParticleSystem.new rng now secs).transition_cooldown = 0 ∧
    (ParticleSystem.new rng now secs).lightning.active = false ∧
    (ParticleSystem.new rng now secs).lightning.frames_remaining = 0 ∧
    (ParticleSystem.new rng now secs).lightning.bolt_segments = [] ∧
    (ParticleSystem.new rng now secs).lightning.next_strike = 5 :=
  ⟨rfl, rfl, rfl, rfl, rfl, rfl, rfl, rfl, rfl, rfl, rfl, rfl, rfl⟩

end Peppemon
